import Mathlib

/-
Shallow embedding of the a11y-wizard scoring engine.

Modelling conventions, used uniformly below:
  * Python strings are Lean `String`s; `s.lower()` / `s.upper()` are modelled by
    mapping `Char.toLower` / `Char.toUpper` over the character sequence, and the
    slice `s[:n]` is `String.take s n` (both operate on the code-point sequence,
    as Python slicing does).
  * Python float arithmetic (Policy B weights, the pass-rate test of Policy A)
    is modelled by exact rational arithmetic over `ℚ`; the float literal `0.95`
    is read as the rational `95/100`, `0.9` as `9/10`, and so on.  Python
    `int(x)` truncates toward zero, modelled by `truncToInt`.
  * Python dicts with a fixed key set are Lean structures; a key that is absent
    in some producers is an `Option` field (`none` = key absent), and
    `d.get(k, default)` is `Option.getD`.
  * `datetime.now()` is modelled by an explicit clock `clock : Nat → Nat`
    giving the (abstract, day-granularity) time observed by the k-th `now()`
    call of a report generation; `timedelta(days = d)` is `· + d`.
-/

/-- Model of Python `str.lower()`: lower-case every character. -/
def pyLower (s : String) : String := ⟨s.data.map Char.toLower⟩

/-- Model of Python `str.upper()`: upper-case every character. -/
def pyUpper (s : String) : String := ⟨s.data.map Char.toUpper⟩

/-- Helper for `pythonTitle`: the Boolean argument records whether the previous
character was alphabetic. -/
def pythonTitleAux : Bool → List Char → List Char
  | _, [] => []
  | prevAlpha, c :: cs =>
    let c' := if c.isAlpha then (if prevAlpha then c.toLower else c.toUpper) else c
    c' :: pythonTitleAux c.isAlpha cs

/-- Model of Python `str.title()`: capitalize the first letter of every word,
lower-case the remaining letters. -/
def pythonTitle (s : String) : String := ⟨pythonTitleAux false s.data⟩

/-- Model of Python `int(x)` on a rational: truncation toward zero. -/
def truncToInt (q : ℚ) : Int := if 0 ≤ q then ⌊q⌋ else ⌈q⌉

/-- One raw axe-core result entry (an element of the `violations`,
`incomplete` or `passes` lists of the axe result dict).  Fields that the code
reads with `dict.get(key, default)` are `Option`s (`none` = key absent). -/
structure AxeItem where
  id : Option String
  description : Option String
  help : Option String
  helpUrl : Option String
  impact : Option String
  tags : List String
  nodes : List String

/-- The axe result dict consumed by `_process_axe_results` and by
`AccessibilityScorer.calculate_score`. -/
structure AxeData where
  violations : List AxeItem
  incomplete : List AxeItem
  passes : List AxeItem

/-- One entry of the `issues` list of a web-scan result dict.  Violation
issues carry `help`/`helpUrl`/`impact`/`nodes` keys, warning issues carry
`impact` but not `help`/`helpUrl`/`nodes`, and the error-result issue carries
none of these; absent keys are `none`. -/
structure Issue where
  type : String
  title : String
  count : Nat
  description : String
  help : Option String
  helpUrl : Option String
  impact : Option String
  fix : String
  category : String
  nodes : Option (List String)
  tags : Option (List String)
deriving Inhabited

/-- Result dict of the web checker (`_process_axe_results` / `_error_result`).
The three count keys are absent from error results, hence `Option`. -/
structure WebResult where
  url : String
  score : Int
  issues : List Issue
  summary : String
  method : String
  violation_count : Option Nat
  warning_count : Option Nat
  pass_count : Option Nat

namespace AccessibilityChecker

/-- Static fix-suggestion table of `AccessibilityChecker._get_fix_suggestion`
(`accessibility_checker.py`), as an association list in source order. -/
def fixes : List (String × String) :=
  [("document-title", "Add a descriptive <title> element in the <head> section."),
   ("image-alt", "Add alt text to images. Use alt=\x27\x27 for decorative images."),
   ("html-has-lang", "Add lang attribute to <html> tag, e.g., <html lang=\x27en\x27>."),
   ("color-contrast", "Increase color contrast ratio to at least 4.5:1."),
   ("link-name", "Links should have descriptive text content."),
   ("button-name", "Buttons should have accessible names."),
   ("label", "Form inputs should have associated <label> elements."),
   ("aria-hidden-focus", "Don\x27t hide focusable elements from screen readers.")]

/-- `AccessibilityChecker._get_fix_suggestion`: dictionary lookup with a
default for unknown rule identifiers. -/
def get_fix_suggestion (issue_id : String) : String :=
  match fixes.find? (fun p => p.1 == issue_id) with
  | some p => p.2
  | none => "Review WCAG guidelines and fix accordingly."

/-- `AccessibilityChecker._get_category`: first-match category lookup over the
tag list. -/
def get_category (tags : List String) : String :=
  if tags.contains "cat.color" then "Color"
  else if tags.contains "cat.forms" then "Forms"
  else if tags.contains "cat.images" then "Images"
  else if tags.contains "cat.language" then "Language"
  else if tags.contains "cat.structure" then "Structure"
  else "General"

/-- Per-violation penalty of `AccessibilityChecker._calculate_score` (the
`impact = v.get("impact", "moderate").lower()` branch chain, lines 119-130):
critical 15, serious 10, moderate 7, final `else` branch 4. -/
def impact_penalty (impact : Option String) : Int :=
  let s := pyLower (impact.getD "moderate")
  if s = "critical" then 15
  else if s = "serious" then 10
  else if s = "moderate" then 7
  else 4

/-- `AccessibilityChecker._calculate_score` (Policy A, strict linear
deduction).  The float test `pass_rate > 0.95` is modelled over `ℚ`. -/
def calculate_score (violations incomplete passes : List AxeItem) : Int :=
  let total := violations.length + incomplete.length + passes.length
  if total = 0 then 100
  else
    let score : Int := 100 - ((violations.map (fun v => impact_penalty v.impact)).sum)
    let score := score - 3 * (incomplete.length : Int)
    let pass_rate : ℚ := (passes.length : ℚ) / (total : ℚ)
    let score := if pass_rate > 95 / 100 then score + 5 else score
    max 60 (min 100 score)

/-- The issue dict built for one violation in `_process_axe_results`. -/
def issue_of_violation (v : AxeItem) : Issue :=
  { type := "critical",
    title := pythonTitle ((v.id.getD "Violation").replace "-" " "),
    count := v.nodes.length,
    description := v.description.getD "",
    help := some (v.help.getD ""),
    helpUrl := some (v.helpUrl.getD ""),
    impact := some (v.impact.getD "moderate"),
    fix := get_fix_suggestion (v.id.getD ""),
    category := get_category v.tags,
    nodes := some (v.nodes.take 2),
    tags := none }

/-- The issue dict built for one incomplete item in `_process_axe_results`. -/
def issue_of_incomplete (item : AxeItem) : Issue :=
  { type := "warning",
    title := pythonTitle ((item.id.getD "Review").replace "-" " "),
    count := item.nodes.length,
    description := "Needs review: " ++ item.description.getD "",
    help := none,
    helpUrl := none,
    impact := some (item.impact.getD "moderate"),
    fix := "Manual review required.",
    category := get_category item.tags,
    nodes := none,
    tags := none }

/-- `AccessibilityChecker._generate_summary`. -/
def generate_summary (violations incomplete : List AxeItem) (score : Int) : String :=
  let emoji := if score ≥ 90 then "✅" else if score ≥ 70 then "⚠️"
               else if score ≥ 50 then "🔧" else "❌"
  let text := if score ≥ 90 then "Excellent" else if score ≥ 70 then "Good"
              else if score ≥ 50 then "Needs Work" else "Poor"
  emoji ++ " " ++ text ++ " - Score: " ++ toString score ++ "/100. " ++
    toString violations.length ++ " violations, " ++
    toString incomplete.length ++ " warnings."

/-- `AccessibilityChecker._process_axe_results`: build the issue list from the
violations and incomplete items, score the scan, and return the result dict;
the rendered issue list is truncated to 20 entries (`issues[:20]`). -/
def process_axe_results (url : String) (axe_data : AxeData) : WebResult :=
  let violations := axe_data.violations
  let incomplete := axe_data.incomplete
  let passes := axe_data.passes
  let issues := violations.map issue_of_violation ++ incomplete.map issue_of_incomplete
  let score := calculate_score violations incomplete passes
  { url := url,
    score := score,
    issues := issues.take 20,
    summary := generate_summary violations incomplete score,
    method := "axe-core",
    violation_count := some violations.length,
    warning_count := some incomplete.length,
    pass_count := some passes.length }

/-- `AccessibilityChecker._error_result`: sentinel result for a failed web
analysis. -/
def error_result (url error : String) : WebResult :=
  { url := url,
    score := 0,
    issues := [{ type := "critical",
                 title := "Analysis Failed",
                 count := 1,
                 description := error.take 100,
                 help := none,
                 helpUrl := none,
                 impact := none,
                 fix := "Try again with a different URL",
                 category := "Error",
                 nodes := none,
                 tags := none }],
    summary := "Failed: " ++ error.take 50,
    method := "error",
    violation_count := none,
    warning_count := none,
    pass_count := none }

end AccessibilityChecker

namespace AccessibilityScorer

/-- Per-violation impact weight of `AccessibilityScorer.calculate_score`
(`templates/scoring.py`, lines 20-32): critical 0.8, serious 0.6, moderate 0.4,
final `else` branch 0.2. -/
def impact_weight (impact : Option String) : ℚ :=
  let s := pyLower (impact.getD "moderate")
  if s = "critical" then 8 / 10
  else if s = "serious" then 6 / 10
  else if s = "moderate" then 4 / 10
  else 2 / 10

/-- Saturating node-count factor of `AccessibilityScorer.calculate_score`:
`min(1.0, 0.2 + 0.8 * (1 - 0.9 ** nodes_count))`. -/
def node_factor (nodes_count : Nat) : ℚ :=
  min 1 (2 / 10 + (8 / 10) * (1 - (9 / 10) ^ nodes_count))

/-- The per-violation deduction `10 * weight * node_factor`. -/
def violation_deduction (v : AxeItem) : ℚ :=
  10 * impact_weight v.impact * node_factor v.nodes.length

/-- The per-incomplete-item deduction
`2 * min(1.0, 0.5 * (1 - 0.95 ** len(nodes)))`. -/
def incomplete_deduction (item : AxeItem) : ℚ :=
  2 * min 1 ((5 / 10) * (1 - (95 / 100) ^ item.nodes.length))

/-- `AccessibilityScorer.calculate_score` (Policy B, weighted
impact-and-prevalence), with float arithmetic modelled over `ℚ`. -/
def calculate_score (axe_results : AxeData) : Int :=
  let violations := axe_results.violations
  let incomplete := axe_results.incomplete
  let passes := axe_results.passes
  let total_checks := violations.length + incomplete.length + passes.length
  if total_checks = 0 then 100
  else
    let base_score : ℚ := 100
    let base_score := base_score - (violations.map violation_deduction).sum
    let base_score := base_score - (incomplete.map incomplete_deduction).sum
    let pass_bonus : ℚ := (passes.length : ℚ) * (5 / 10)
    let base_score := base_score + min 20 pass_bonus
    max 0 (min 100 (truncToInt base_score))

end AccessibilityScorer

/-- One entry of the `issues` list of a document-analysis result dict
(`pdf_analyzer.py`).  `_calculate_score` reads the `type` key with a bare
`issue.get("type")`, so the field is an `Option`. -/
structure DocIssue where
  type : Option String
  title : String
  count : Nat
  description : String
  fix : String
  category : String
deriving Inhabited

/-- Result dict of `PDFAccessibilityChecker._error_result`. -/
structure DocResult where
  filename : String
  score : Int
  issues : List DocIssue
  summary : String
  method : String

namespace PDFAccessibilityChecker

/-- Per-issue deduction of `PDFAccessibilityChecker._calculate_score`:
critical 15, warning 5, anything else (including a missing type) 0. -/
def issue_penalty (issue : DocIssue) : Int :=
  if issue.type = some "critical" then 15
  else if issue.type = some "warning" then 5
  else 0

/-- `PDFAccessibilityChecker._calculate_score` (Policy C, document structural
deduction): subtract per issue, add a +5 content bonus when the element count
exceeds 10, then clamp into [30, 100] by the two trailing `if`s. -/
def calculate_score (issues : List DocIssue) (element_count : Nat) : Int :=
  let score : Int := 100 - (issues.map issue_penalty).sum
  let score := if element_count > 10 then score + 5 else score
  let score := if score < 30 then 30 else score
  let score := if score > 100 then 100 else score
  score

/-- `PDFAccessibilityChecker._error_result`: sentinel result for a failed
document analysis. -/
def error_result (filename error : String) : DocResult :=
  { filename := filename,
    score := 0,
    issues := [{ type := some "critical",
                 title := "Analysis Failed",
                 count := 1,
                 description := error.take 100,
                 fix := "Try a different file or format",
                 category := "Error" }],
    summary := "Analysis failed: " ++ error.take 50,
    method := "error" }

end PDFAccessibilityChecker

/-- Due date of one CSV issue row: either the literal cell "IMMEDIATE" or a
concrete day. -/
inductive DueDate where
  | immediate : DueDate
  | onDay : Nat → DueDate
deriving DecidableEq

/-- The structured (JSON) compliance report dict built by
`UniversityComplianceTracker.generate_report`.  Timestamps are clock ticks. -/
structure Report where
  institution : String
  timestamp : Nat
  url : String
  department : String
  score : Int
  compliance_status : String
  wcag_level : String
  critical_issues : Nat
  total_issues : Nat
  detailed_issues : List Issue
  auditor : String
  next_audit_date : Nat
  legal_references : List String

/-- One detailed-issue row of the CSV report
(type, title, description, category, fix, due date). -/
structure CsvIssueRow where
  type : String
  title : String
  description : String
  category : String
  fix : String
  due : DueDate

/-- The tabular (CSV) report written by
`UniversityComplianceTracker._generate_csv_report`. -/
structure CsvReport where
  generated : Nat
  url : String
  department : String
  score_cell : String
  compliance_status : String
  wcag_level : String
  critical_issues : Nat
  total_issues : Nat
  next_audit_due : Nat
  issue_rows : List CsvIssueRow

namespace UniversityComplianceTracker

/-- `UniversityComplianceTracker._get_compliance_status`. -/
def get_compliance_status (score : Int) : String :=
  if score ≥ 95 then "COMPLIANT - Excellent"
  else if score ≥ 90 then "COMPLIANT - Good"
  else if score ≥ 80 then "PARTIALLY COMPLIANT - Needs Improvement"
  else if score ≥ 70 then "NON-COMPLIANT - Significant Issues"
  else "NON-COMPLIANT - Critical Remediation Required"

/-- `UniversityComplianceTracker._determine_wcag_level`: the for-loop returns
on the first issue tagged "wcag2aa" whose type is critical, so it is the
first-match search `List.find?`. -/
def determine_wcag_level (issues : List Issue) : String :=
  match issues.find? (fun i => (i.tags.getD []).contains "wcag2aa" && i.type == "critical") with
  | some _ => "WCAG 2.0 A (Minimum)"
  | none => "WCAG 2.1 AA (Target)"

/-- `UniversityComplianceTracker._get_next_audit_date`: `now + 90` days. -/
def get_next_audit_date (now : Nat) : Nat := now + 90

/-- The due-date rule applied to one issue at time `now`:
critical → "IMMEDIATE", warning → now + 30 days, otherwise now + 60 days. -/
def issue_due_date (issue : Issue) (now : Nat) : DueDate :=
  if issue.type = "critical" then DueDate.immediate
  else if issue.type = "warning" then DueDate.onDay (now + 30)
  else DueDate.onDay (now + 60)

/-- The detailed-issue rows of `_generate_csv_report`.  `k` is the index of
the next `datetime.now()` call; the critical branch writes "IMMEDIATE" without
consulting the clock, the other two branches each read `datetime.now()`
afresh (code lines 113 and 115). -/
def csv_issue_rows (clock : Nat → Nat) : Nat → List Issue → List CsvIssueRow
  | _, [] => []
  | k, issue :: rest =>
    if issue.type = "critical" then
      { type := pyUpper issue.type, title := issue.title,
        description := issue.description.take 100, category := issue.category,
        fix := issue.fix, due := DueDate.immediate } :: csv_issue_rows clock k rest
    else if issue.type = "warning" then
      { type := pyUpper issue.type, title := issue.title,
        description := issue.description.take 100, category := issue.category,
        fix := issue.fix, due := DueDate.onDay (clock k + 30) } ::
          csv_issue_rows clock (k + 1) rest
    else
      { type := pyUpper issue.type, title := issue.title,
        description := issue.description.take 100, category := issue.category,
        fix := issue.fix, due := DueDate.onDay (clock k + 60) } ::
          csv_issue_rows clock (k + 1) rest

/-- `UniversityComplianceTracker._generate_csv_report`: the header reads the
clock once ("Generated:" row), the summary rows copy the report dict, and the
issue rows follow. -/
def generate_csv_report (clock : Nat → Nat) (k : Nat) (report : Report) : CsvReport :=
  { generated := clock k,
    url := report.url,
    department := report.department,
    score_cell := toString report.score ++ "/100",
    compliance_status := report.compliance_status,
    wcag_level := report.wcag_level,
    critical_issues := report.critical_issues,
    total_issues := report.total_issues,
    next_audit_due := report.next_audit_date,
    issue_rows := csv_issue_rows clock (k + 1) report.detailed_issues }

/-- `UniversityComplianceTracker.generate_report`: build the structured report
dict, then the CSV.  `datetime.now()` call order: call 0 is the filename
timestamp (line 17), call 1 is `_get_next_audit_date` (line 76), call 2 is the
CSV header (line 88), calls 3, 4, ... are the per-row due-date reads. -/
def generate_report (clock : Nat → Nat) (url : String) (results : WebResult)
    (department : String) : Report × CsvReport :=
  let timestamp := clock 0
  let report : Report :=
    { institution := "University Accessibility Audit",
      timestamp := timestamp,
      url := url,
      department := department,
      score := results.score,
      compliance_status := get_compliance_status results.score,
      wcag_level := determine_wcag_level results.issues,
      critical_issues := (results.issues.filter (fun i => i.type == "critical")).length,
      total_issues := results.issues.length,
      detailed_issues := results.issues,
      auditor := "A11y Wizard",
      next_audit_date := get_next_audit_date (clock 1),
      legal_references := ["ADA Title II", "Section 508", "WCAG 2.1 AA",
                           "OCR Resolution Agreements"] }
  (report, generate_csv_report clock 2 report)

end UniversityComplianceTracker

/-- A critical axe violation affecting 3 nodes, used as a concrete test
input. -/
def criticalViolationExample : AxeItem :=
  { id := some "image-alt",
    description := some "Images must have alternate text",
    help := some "Images must have alternate text",
    helpUrl := some "https://dequeuniversity.com/rules/axe/image-alt",
    impact := some "critical",
    tags := ["cat.images", "wcag2a"],
    nodes := ["n1", "n2", "n3"] }

/-- A passed axe check, used as a concrete test input. -/
def passExample : AxeItem :=
  { id := some "document-title",
    description := some "Documents must have a title",
    help := some "Documents must have a title",
    helpUrl := some "https://dequeuniversity.com/rules/axe/document-title",
    impact := none,
    tags := ["cat.text-alternatives"],
    nodes := [] }

/-- A critical document finding (the missing-title check of the PDF
analyzer), used as a concrete test input. -/
def criticalFindingExample : DocIssue :=
  { type := some "critical",
    title := "Missing Document Title",
    count := 1,
    description := "PDF missing title in document properties",
    fix := "Add a title in PDF properties (File → Properties)",
    category := "Document Structure" }

/-- A warning document finding (the missing-bookmarks check of the PDF
analyzer), used as a concrete test input. -/
def warningFindingExample : DocIssue :=
  { type := some "warning",
    title := "No Document Bookmarks",
    count := 1,
    description := "PDF lacks bookmarks for navigation",
    fix := "Add bookmarks for major sections",
    category := "Navigation" }

/-- A warning-type web issue, used as a concrete test input for report
generation. -/
def warningIssueExample : Issue :=
  { type := "warning",
    title := "Color Contrast",
    count := 2,
    description := "Needs review: elements must have sufficient color contrast",
    help := none,
    helpUrl := none,
    impact := some "serious",
    fix := "Manual review required.",
    category := "Color",
    nodes := none,
    tags := none }

/-- A web-scan result with one warning issue, used as a concrete test input
for report generation. -/
def webResultExample : WebResult :=
  { url := "https://example.edu",
    score := 97,
    issues := [warningIssueExample],
    summary := "✅ Excellent - Score: 97/100. 0 violations, 1 warnings.",
    method := "axe-core",
    violation_count := some 0,
    warning_count := some 1,
    pass_count := some 40 }

/-- C1: Policy A (strict linear deduction, web scans): for every non-empty,
well-formed input (total of violations, incomplete and passes at least 1), the
returned score is an integer in [60, 100]; the policy never reports below 60
regardless of how many violations are present. -/
theorem C1_policyA_score_range (violations incomplete passes : List AxeItem)
    (h : 1 ≤ violations.length + incomplete.length + passes.length) :
    60 ≤ AccessibilityChecker.calculate_score violations incomplete passes ∧
    AccessibilityChecker.calculate_score violations incomplete passes ≤ 100 := by
  simp only [AccessibilityChecker.calculate_score]
  rw [if_neg (by omega)]
  exact ⟨le_max_left _ _, max_le (by norm_num) (min_le_left _ _)⟩

theorem C1_policyA_score_range_witness :
    60 ≤ AccessibilityChecker.calculate_score [criticalViolationExample] [] [] ∧
    AccessibilityChecker.calculate_score [criticalViolationExample] [] [] ≤ 100 :=
  C1_policyA_score_range [criticalViolationExample] [] [] (by decide)

/-- C3: Policy A worked example: for the input consisting of exactly one
violation with impact "critical" (affected_count 3), zero incomplete items,
and 19 passes, the computed score is exactly 85 (total = 20, deduction 15,
pass_rate = 19/20 = 0.95 which is not > 0.95, so no +5 bonus). -/
theorem C3_policyA_worked_example :
    AccessibilityChecker.calculate_score [criticalViolationExample] []
      (List.replicate 19 passExample) = 85 := by
  have hpen : AccessibilityChecker.impact_penalty (some "critical") = 15 := by decide
  simp only [AccessibilityChecker.calculate_score, criticalViolationExample,
    List.map_cons, List.map_nil, List.sum_cons, List.sum_nil,
    List.length_cons, List.length_nil, List.length_replicate, hpen]
  norm_num

/-- C4: Policy C (document structural deduction): for every list of findings
and element count, the score lies in [30, 100]; for exactly one critical
finding with no other findings and element_count ≤ 10 the score is exactly 85;
for exactly one critical plus one warning finding with no content bonus the
score is exactly 80. -/
theorem C4_policyC_range_and_examples :
    (∀ (issues : List DocIssue) (element_count : Nat),
        30 ≤ PDFAccessibilityChecker.calculate_score issues element_count ∧
        PDFAccessibilityChecker.calculate_score issues element_count ≤ 100) ∧
    (∀ element_count : Nat, element_count ≤ 10 →
        PDFAccessibilityChecker.calculate_score [criticalFindingExample] element_count = 85) ∧
    (∀ element_count : Nat, element_count ≤ 10 →
        PDFAccessibilityChecker.calculate_score [criticalFindingExample, warningFindingExample]
          element_count = 80) := by
  refine ⟨fun issues element_count => ?_, fun element_count hec => ?_,
          fun element_count hec => ?_⟩
  · simp only [PDFAccessibilityChecker.calculate_score]
    split_ifs <;> omega
  · have h15 : PDFAccessibilityChecker.issue_penalty criticalFindingExample = 15 := by decide
    have hec' : ¬ (10 < element_count) := by omega
    simp only [PDFAccessibilityChecker.calculate_score, List.map_cons, List.map_nil,
      List.sum_cons, List.sum_nil, h15, gt_iff_lt, if_neg hec']
    decide
  · have h15 : PDFAccessibilityChecker.issue_penalty criticalFindingExample = 15 := by decide
    have h5 : PDFAccessibilityChecker.issue_penalty warningFindingExample = 5 := by decide
    have hec' : ¬ (10 < element_count) := by omega
    simp only [PDFAccessibilityChecker.calculate_score, List.map_cons, List.map_nil,
      List.sum_cons, List.sum_nil, h15, h5, gt_iff_lt, if_neg hec']
    decide

theorem C4_policyC_range_and_examples_witness :
    PDFAccessibilityChecker.calculate_score [criticalFindingExample] 5 = 85 ∧
    PDFAccessibilityChecker.calculate_score [criticalFindingExample, warningFindingExample] 5
      = 80 :=
  ⟨C4_policyC_range_and_examples.2.1 5 (by decide),
   C4_policyC_range_and_examples.2.2 5 (by decide)⟩

/-- C5: Error path: for every failure reason string, the error-result
constructor returns a result with score exactly 0 and exactly one finding,
that finding has severity critical, and its description text is truncated to
at most 100 characters.  Both the web checker's and the document checker's
error constructors are covered. -/
theorem C5_error_result_shape (url filename reason : String) :
    (AccessibilityChecker.error_result url reason).score = 0 ∧
    (AccessibilityChecker.error_result url reason).issues.length = 1 ∧
    ((AccessibilityChecker.error_result url reason).issues.headI).type = "critical" ∧
    ((AccessibilityChecker.error_result url reason).issues.headI).description.length ≤ 100 ∧
    (PDFAccessibilityChecker.error_result filename reason).score = 0 ∧
    (PDFAccessibilityChecker.error_result filename reason).issues.length = 1 ∧
    ((PDFAccessibilityChecker.error_result filename reason).issues.headI).type
      = some "critical" ∧
    ((PDFAccessibilityChecker.error_result filename reason).issues.headI).description.length
      ≤ 100 := by
  have hlen : (reason.take 100).length ≤ 100 := by
    have h : (reason.take 100).length = (reason.data.take 100).length := by
      rw [String.take_eq]; rfl
    rw [h, List.length_take]; omega
  refine ⟨?_, ?_, ?_, ?_, ?_, ?_, ?_, ?_⟩ <;>
    simp [AccessibilityChecker.error_result, PDFAccessibilityChecker.error_result,
      List.headI] <;>
    exact hlen

/-- C6: compliance_status is a total, non-overlapping step function of the
integer score with bands at ≥95 "COMPLIANT - Excellent", ≥90 "COMPLIANT -
Good", ≥80 "PARTIALLY COMPLIANT - Needs Improvement", ≥70 "NON-COMPLIANT -
Significant Issues", else "NON-COMPLIANT - Critical Remediation Required"; in
particular score 90 maps to "COMPLIANT - Good" and score 89 maps to
"PARTIALLY COMPLIANT - Needs Improvement". -/
theorem C6_compliance_status_bands :
    (∀ s : Int, 95 ≤ s →
        UniversityComplianceTracker.get_compliance_status s = "COMPLIANT - Excellent") ∧
    (∀ s : Int, 90 ≤ s → s < 95 →
        UniversityComplianceTracker.get_compliance_status s = "COMPLIANT - Good") ∧
    (∀ s : Int, 80 ≤ s → s < 90 →
        UniversityComplianceTracker.get_compliance_status s
          = "PARTIALLY COMPLIANT - Needs Improvement") ∧
    (∀ s : Int, 70 ≤ s → s < 80 →
        UniversityComplianceTracker.get_compliance_status s
          = "NON-COMPLIANT - Significant Issues") ∧
    (∀ s : Int, s < 70 →
        UniversityComplianceTracker.get_compliance_status s
          = "NON-COMPLIANT - Critical Remediation Required") ∧
    UniversityComplianceTracker.get_compliance_status 90 = "COMPLIANT - Good" ∧
    UniversityComplianceTracker.get_compliance_status 89
      = "PARTIALLY COMPLIANT - Needs Improvement" := by
  refine ⟨?_, ?_, ?_, ?_, ?_, by decide, by decide⟩ <;>
    first
    | (intro s h
       unfold UniversityComplianceTracker.get_compliance_status
       split_ifs <;> first | rfl | omega)
    | (intro s h h'
       unfold UniversityComplianceTracker.get_compliance_status
       split_ifs <;> first | rfl | omega)

theorem C6_compliance_status_bands_witness :
    UniversityComplianceTracker.get_compliance_status 97 = "COMPLIANT - Excellent" ∧
    UniversityComplianceTracker.get_compliance_status 75
      = "NON-COMPLIANT - Significant Issues" ∧
    UniversityComplianceTracker.get_compliance_status 42
      = "NON-COMPLIANT - Critical Remediation Required" :=
  ⟨C6_compliance_status_bands.1 97 (by decide),
   C6_compliance_status_bands.2.2.2.1 75 (by decide) (by decide),
   C6_compliance_status_bands.2.2.2.2.1 42 (by decide)⟩

/-- C7 counterexample: the claim says a present-but-unknown impact value is
treated as moderate (penalty 7, weight 0.4); in the code the final `else`
branch (labeled minor) catches it instead, giving penalty 4 and weight 0.2.
Concrete input: a violation whose impact field is the unknown value
"widespread". -/
theorem C7_unknown_impact_counterexample :
    AccessibilityChecker.impact_penalty (some "widespread") = 4 ∧
    AccessibilityChecker.impact_penalty (some "widespread") ≠ 7 ∧
    AccessibilityScorer.impact_weight (some "widespread") = 2 / 10 ∧
    AccessibilityScorer.impact_weight (some "widespread") ≠ 4 / 10 := by
  refine ⟨by decide, by decide, ?_, ?_⟩
  · show (if pyLower "widespread" = "critical" then (8 : ℚ) / 10
          else if pyLower "widespread" = "serious" then 6 / 10
          else if pyLower "widespread" = "moderate" then 4 / 10
          else 2 / 10) = 2 / 10
    rw [if_neg (by decide), if_neg (by decide), if_neg (by decide)]
  · show (if pyLower "widespread" = "critical" then (8 : ℚ) / 10
          else if pyLower "widespread" = "serious" then 6 / 10
          else if pyLower "widespread" = "moderate" then 4 / 10
          else 2 / 10) ≠ 4 / 10
    rw [if_neg (by decide), if_neg (by decide), if_neg (by decide)]
    norm_num

/-- C7 amended: a violation whose impact field is missing is treated as
moderate (Policy A deducts 7, Policy B uses weight 0.4); a violation whose
impact field is present but whose lower-cased value is none of critical,
serious or moderate falls into the final (minor) branch: Policy A deducts 4
and Policy B uses weight 0.2. -/
theorem C7_impact_default_amended :
    AccessibilityChecker.impact_penalty none = 7 ∧
    AccessibilityScorer.impact_weight none = 4 / 10 ∧
    (∀ s : String, pyLower s ≠ "critical" → pyLower s ≠ "serious" →
      pyLower s ≠ "moderate" →
      AccessibilityChecker.impact_penalty (some s) = 4 ∧
      AccessibilityScorer.impact_weight (some s) = 2 / 10) := by
  refine ⟨by decide, ?_, fun s h1 h2 h3 => ⟨?_, ?_⟩⟩
  · show (if pyLower "moderate" = "critical" then (8 : ℚ) / 10
          else if pyLower "moderate" = "serious" then 6 / 10
          else if pyLower "moderate" = "moderate" then 4 / 10
          else 2 / 10) = 4 / 10
    rw [if_neg (by decide), if_neg (by decide), if_pos (by decide)]
  · show (if pyLower s = "critical" then (15 : Int)
          else if pyLower s = "serious" then 10
          else if pyLower s = "moderate" then 7
          else 4) = 4
    rw [if_neg h1, if_neg h2, if_neg h3]
  · show (if pyLower s = "critical" then (8 : ℚ) / 10
          else if pyLower s = "serious" then 6 / 10
          else if pyLower s = "moderate" then 4 / 10
          else 2 / 10) = 2 / 10
    rw [if_neg h1, if_neg h2, if_neg h3]

theorem C7_impact_default_amended_witness :
    AccessibilityChecker.impact_penalty (some "blocker") = 4 ∧
    AccessibilityScorer.impact_weight (some "blocker") = 2 / 10 :=
  C7_impact_default_amended.2.2 "blocker" (by decide) (by decide) (by decide)

/-- C9 counterexample: for a rule_id outside the static map the code returns
"Review WCAG guidelines and fix accordingly." (note "WCAG" and the trailing
period), not the claim's "Review accessibility guidelines and fix
accordingly".  Concrete input: rule_id "landmark-one-main". -/
theorem C9_default_fix_counterexample :
    AccessibilityChecker.get_fix_suggestion "landmark-one-main" =
      "Review WCAG guidelines and fix accordingly." ∧
    AccessibilityChecker.get_fix_suggestion "landmark-one-main" ≠
      "Review accessibility guidelines and fix accordingly" := by
  exact ⟨by decide, by decide⟩

/-- C9 amended: the fix-suggestion lookup is a static map from rule_id to
suggestion text, and for every rule_id not present in the map it returns
exactly the default string "Review WCAG guidelines and fix accordingly.". -/
theorem C9_fix_lookup_amended :
    (∀ (issue_id : String) (entry : String × String),
        AccessibilityChecker.fixes.find? (fun p => p.1 == issue_id) = some entry →
        AccessibilityChecker.get_fix_suggestion issue_id = entry.2) ∧
    (∀ issue_id : String,
        AccessibilityChecker.fixes.find? (fun p => p.1 == issue_id) = none →
        AccessibilityChecker.get_fix_suggestion issue_id =
          "Review WCAG guidelines and fix accordingly.") := by
  constructor
  · intro issue_id entry h
    simp [AccessibilityChecker.get_fix_suggestion, h]
  · intro issue_id h
    simp [AccessibilityChecker.get_fix_suggestion, h]

theorem C9_fix_lookup_amended_witness :
    AccessibilityChecker.get_fix_suggestion "landmark-main" =
      "Review WCAG guidelines and fix accordingly." :=
  C9_fix_lookup_amended.2 "landmark-main" (by decide)

/-- C10: for every axe-core scan result, the issues list in the returned
web-scan record contains at most 20 entries, even when the number of
violations plus incomplete items exceeds 20; findings beyond the first 20 are
silently dropped from the rendered issue list, while all findings still
contribute to the score, violation_count and warning_count. -/
theorem C10_issue_list_truncation (url : String) (axe_data : AxeData) :
    (AccessibilityChecker.process_axe_results url axe_data).issues.length ≤ 20 ∧
    (AccessibilityChecker.process_axe_results url axe_data).issues
      = (axe_data.violations.map AccessibilityChecker.issue_of_violation ++
         axe_data.incomplete.map AccessibilityChecker.issue_of_incomplete).take 20 ∧
    (AccessibilityChecker.process_axe_results url axe_data).issues.length
      = min 20 (axe_data.violations.length + axe_data.incomplete.length) ∧
    (AccessibilityChecker.process_axe_results url axe_data).violation_count
      = some axe_data.violations.length ∧
    (AccessibilityChecker.process_axe_results url axe_data).warning_count
      = some axe_data.incomplete.length ∧
    (AccessibilityChecker.process_axe_results url axe_data).score
      = AccessibilityChecker.calculate_score axe_data.violations axe_data.incomplete
          axe_data.passes := by
  have hlen : (AccessibilityChecker.process_axe_results url axe_data).issues.length
      = min 20 (axe_data.violations.length + axe_data.incomplete.length) := by
    simp [AccessibilityChecker.process_axe_results, List.length_take,
      List.length_append, List.length_map]
  exact ⟨hlen ▸ min_le_left _ _, rfl, hlen, rfl, rfl, rfl⟩

theorem impact_weight_nonneg (impact : Option String) :
    0 ≤ AccessibilityScorer.impact_weight impact := by
  simp only [AccessibilityScorer.impact_weight]
  split_ifs <;> norm_num

theorem node_factor_mono {n m : Nat} (h : n ≤ m) :
    AccessibilityScorer.node_factor n ≤ AccessibilityScorer.node_factor m := by
  unfold AccessibilityScorer.node_factor
  have hp : ((9 : ℚ) / 10) ^ m ≤ ((9 : ℚ) / 10) ^ n :=
    pow_le_pow_of_le_one (by norm_num) (by norm_num) h
  exact min_le_min le_rfl (by linarith)

theorem violation_deduction_mono (v : AxeItem) (ns : List String)
    (h : v.nodes.length ≤ ns.length) :
    AccessibilityScorer.violation_deduction v ≤
      AccessibilityScorer.violation_deduction { v with nodes := ns } := by
  unfold AccessibilityScorer.violation_deduction
  have hw : (0 : ℚ) ≤ 10 * AccessibilityScorer.impact_weight v.impact :=
    mul_nonneg (by norm_num) (impact_weight_nonneg _)
  exact mul_le_mul_of_nonneg_left (node_factor_mono h) hw

theorem sum_map_le_sum_map_set (f : AxeItem → ℚ) :
    ∀ (l : List AxeItem) (i : Nat) (v v' : AxeItem),
      l.get? i = some v → f v ≤ f v' →
      (l.map f).sum ≤ ((l.set i v').map f).sum := by
  intro l
  induction l with
  | nil => intro i v v' h _; simp at h
  | cons a t ih =>
    intro i v v' h hle
    cases i with
    | zero =>
      simp only [List.get?_cons_zero, Option.some.injEq] at h
      subst h
      simp only [List.set_cons_zero, List.map_cons, List.sum_cons]
      linarith
    | succ n =>
      simp only [List.get?_cons_succ] at h
      simp only [List.set_cons_succ, List.map_cons, List.sum_cons]
      have := ih n v v' h hle
      linarith

theorem truncToInt_mono {p q : ℚ} (h : p ≤ q) : truncToInt p ≤ truncToInt q := by
  unfold truncToInt
  split_ifs with h1 h2 h2
  · exact Int.floor_le_floor h
  · linarith
  · calc ⌈p⌉ ≤ 0 := Int.ceil_le.mpr (by push_cast; linarith)
      _ ≤ ⌊q⌋ := Int.floor_nonneg.mpr h2
  · exact Int.ceil_le_ceil h

/-- C2: Policy B (weighted impact-and-prevalence): for every two inputs
identical except that one violation entry has a strictly higher
affected_count (node count) in one of them, the score computed for the input
with the higher count is less than or equal to the score for the other:
increasing the number of affected instances never increases the score. -/
theorem C2_policyB_affected_count_monotone
    (violations : List AxeItem) (i : Nat) (v : AxeItem) (ns : List String)
    (incomplete passes : List AxeItem)
    (hget : violations.get? i = some v)
    (hlt : v.nodes.length < ns.length) :
    AccessibilityScorer.calculate_score
        ⟨violations.set i { v with nodes := ns }, incomplete, passes⟩ ≤
      AccessibilityScorer.calculate_score ⟨violations, incomplete, passes⟩ := by
  have hsum : (violations.map AccessibilityScorer.violation_deduction).sum ≤
      ((violations.set i { v with nodes := ns }).map
        AccessibilityScorer.violation_deduction).sum :=
    sum_map_le_sum_map_set _ violations i v _ hget
      (violation_deduction_mono v ns (le_of_lt hlt))
  simp only [AccessibilityScorer.calculate_score, List.length_set]
  split_ifs with h0
  · exact le_refl _
  · refine max_le_max le_rfl (min_le_min le_rfl (truncToInt_mono ?_))
    linarith

theorem C2_policyB_affected_count_monotone_witness :
    AccessibilityScorer.calculate_score
        ⟨[criticalViolationExample].set 0
            { criticalViolationExample with nodes := ["n1", "n2", "n3", "n4"] }, [], []⟩ ≤
      AccessibilityScorer.calculate_score ⟨[criticalViolationExample], [], []⟩ :=
  C2_policyB_affected_count_monotone [criticalViolationExample] 0 criticalViolationExample
    ["n1", "n2", "n3", "n4"] [] [] rfl (by decide)

theorem csv_issue_rows_spec (clock : Nat → Nat) :
    ∀ (k : Nat) (issues : List Issue),
      List.Forall₂ (fun (i : Issue) (r : CsvIssueRow) =>
          r.type = pyUpper i.type ∧
          (i.type = "critical" → r.due = DueDate.immediate) ∧
          (i.type = "warning" → ∃ t, r.due = DueDate.onDay (t + 30)) ∧
          (i.type ≠ "critical" → i.type ≠ "warning" →
            ∃ t, r.due = DueDate.onDay (t + 60)))
        issues (UniversityComplianceTracker.csv_issue_rows clock k issues) := by
  intro k issues
  induction issues generalizing k with
  | nil =>
    unfold UniversityComplianceTracker.csv_issue_rows
    exact List.Forall₂.nil
  | cons a rest ih =>
    unfold UniversityComplianceTracker.csv_issue_rows
    split_ifs with h1 h2
    · exact List.Forall₂.cons
        ⟨rfl, fun _ => rfl,
         fun hw => absurd (h1.symm.trans hw) (by decide),
         fun hc _ => absurd h1 hc⟩ (ih k)
    · exact List.Forall₂.cons
        ⟨rfl, fun hc => absurd hc h1,
         fun _ => ⟨clock k, rfl⟩,
         fun _ hw => absurd h2 hw⟩ (ih (k + 1))
    · exact List.Forall₂.cons
        ⟨rfl, fun hc => absurd hc h1,
         fun hw => absurd hw h2,
         fun _ _ => ⟨clock k, rfl⟩⟩ (ih (k + 1))

/-- C8 counterexample: the claim requires the per-finding due dates of the
tabular output to be computed from the same generation-time reference as the
structured output.  In the code each non-critical CSV row re-reads
`datetime.now()` (lines 113 and 115), and the structured output carries no
per-finding due dates at all.  Concrete input: one warning issue under a
clock that advances one day per `now()` call; the CSV row's due date is
day 33 + 0 = clock-at-row-time + 30, while the report's generation time
predicts day 30. -/
theorem C8_shared_now_counterexample :
    ((UniversityComplianceTracker.generate_report (fun k => k) "https://example.edu"
        webResultExample "").2.issue_rows.map (fun r => r.due)) ≠
      ((UniversityComplianceTracker.generate_report (fun k => k) "https://example.edu"
        webResultExample "").1.detailed_issues.map (fun i =>
          UniversityComplianceTracker.issue_due_date i
            (UniversityComplianceTracker.generate_report (fun k => k) "https://example.edu"
              webResultExample "").1.timestamp)) := by
  decide

/-- C8 amended: the structured and tabular outputs of one report generation
agree on the score and the compliance_status (both are read from the same
report record), and row-by-row the tabular output applies the due-date rule
with critical rows marked IMMEDIATE; per-finding due dates appear only in the
tabular output, and each non-critical row derives its date from a fresh clock
reading taken when the row is written, not from the report's single
generation-time reference. -/
theorem C8_report_outputs_amended (clock : Nat → Nat) (url department : String)
    (results : WebResult) :
    (UniversityComplianceTracker.generate_report clock url results department).2.score_cell
      = toString
          (UniversityComplianceTracker.generate_report clock url results department).1.score
        ++ "/100" ∧
    (UniversityComplianceTracker.generate_report clock url results department).2.compliance_status
      = (UniversityComplianceTracker.generate_report clock url results
          department).1.compliance_status ∧
    (UniversityComplianceTracker.generate_report clock url results department).2.wcag_level
      = (UniversityComplianceTracker.generate_report clock url results department).1.wcag_level ∧
    (UniversityComplianceTracker.generate_report clock url results department).1.score
      = results.score ∧
    (UniversityComplianceTracker.generate_report clock url results department).1.compliance_status
      = UniversityComplianceTracker.get_compliance_status results.score ∧
    List.Forall₂ (fun (i : Issue) (r : CsvIssueRow) =>
        r.type = pyUpper i.type ∧ (i.type = "critical" → r.due = DueDate.immediate))
      (UniversityComplianceTracker.generate_report clock url results department).1.detailed_issues
      (UniversityComplianceTracker.generate_report clock url results department).2.issue_rows := by
  refine ⟨rfl, rfl, rfl, rfl, rfl, ?_⟩
  have h := csv_issue_rows_spec clock 3 results.issues
  exact h.imp (fun a r hab => ⟨hab.1, hab.2.1⟩)

theorem C8_report_outputs_amended_witness :
    (UniversityComplianceTracker.generate_report (fun k => k) "https://example.edu"
        webResultExample "").2.compliance_status
      = (UniversityComplianceTracker.generate_report (fun k => k) "https://example.edu"
        webResultExample "").1.compliance_status :=
  (C8_report_outputs_amended (fun k => k) "https://example.edu" "" webResultExample).2.1
